import Mathlib

/-!
Verification of the Natural-Language Query & Retrieval-Augmented Assistant
subsystem of the global-energy-app repository (src/app.py).

Strings are modelled as `List Char`. Python-level behaviours embedded here:
* `str.strip()` / `\s` whitespace (ASCII subset used by the program),
* `re.findall(r'\b\w+\b', ...)` as maximal runs of word characters,
* the allow-list validation `sql_query_raw.upper().startswith("SELECT")`,
* the tolerant marker regex `\[WEB_SEARCH_SUGGESTION:\s*(.*?)\s*\]`
  with Python's leftmost-match, greedy/lazy backtracking semantics,
* `str.replace(old, "")` as removal of all non-overlapping occurrences,
* `urllib.parse.quote` percent-encoding (default safe characters),
* the two background work units `run_query_in_thread` and
  `process_chat_response`, with the language-model and record-store
  capabilities abstracted as fallible functions and all externally
  observable effects (scheduled UI callbacks, store executions, browser
  opens) recorded in result structures.
-/

set_option maxRecDepth 20000

namespace EnergyApp

/-- ASCII whitespace as matched by Python's `str.strip()` and `\s`:
space, tab, newline, carriage return, vertical tab, form feed. -/
def isPySpace (c : Char) : Bool :=
  c == ' ' || c == '\t' || c == '\n' || c == '\x0d' || c == '\x0b' || c == '\x0c'

/-- Python `str.strip()`: remove leading and trailing whitespace. -/
def pyStrip (s : List Char) : List Char :=
  ((s.dropWhile isPySpace).reverse.dropWhile isPySpace).reverse

/-- Word character for the regex `\w` (ASCII fragment):
letters, digits, underscore. -/
def isWordChar (c : Char) : Bool :=
  c.isAlphanum || c == '_'

/-- Decidable prefix test: `startsWith p s` is true iff `p` is a prefix
of `s` (models Python `str.startswith`). -/
def startsWith : List Char → List Char → Bool
  | [], _ => true
  | _ :: _, [] => false
  | p :: ps, c :: cs => p == c && startsWith ps cs

/-- Auxiliary tokenizer: accumulates the current (reversed) run of word
characters and cuts a token whenever a non-word character is met. -/
def tokensAux : List Char → List Char → List (List Char)
  | [], acc => if acc.isEmpty then [] else [acc.reverse]
  | c :: cs, acc =>
    if isWordChar c then tokensAux cs (c :: acc)
    else if acc.isEmpty then tokensAux cs []
    else acc.reverse :: tokensAux cs []

/-- Model of `re.findall(r'\b\w+\b', s)`: the maximal runs of word characters
of `s`, in order. -/
def tokens (s : List Char) : List (List Char) :=
  tokensAux s []

/-- The stop-word set of `retrieve_context` (src/app.py line 906). -/
def stopWords : List (List Char) :=
  ["what", "is", "are", "tell", "me", "about", "who", "which", "show",
   "list", "of", "the", "a", "an", "find"].map String.data

/-- The keyword-extraction step of `retrieve_context`
(src/app.py lines 904-907):
tokens of the lowercased query, keeping those not in the stop-word set
and of length greater than 2.  Duplicates are kept: the source filters a
list, it does not deduplicate. -/
def extract_keywords (query : List Char) : List (List Char) :=
  (tokens (query.map Char.toLower)).filter
    (fun w => !(stopWords.contains w) && decide (2 < w.length))

example : extract_keywords ("What is solar energy?".data) =
    [("solar".data), ("energy".data)] := by decide

example : extract_keywords ("the a of".data) = [] := by decide

example : extract_keywords ("solar solar".data) =
    [("solar".data), ("solar".data)] := by decide

example : extract_keywords ("____".data) = [("____".data)] := by decide

/-! ## Context Retriever (src/app.py lines 898-947) -/

/-- A producer record as selected by the retrieval query:
`SELECT name, products, category FROM producers ...`.
`products`/`category` empty models Python-falsy (None or empty string). -/
structure Row where
  name : List Char
  products : List Char
  category : List Char
deriving DecidableEq, Repr

/-- The record-store lookup capability used by `retrieve_context`:
given the filtered keywords it either returns the selected rows
(the source caps them with `LIMIT 5` inside the store query) or fails
with an error message (a raised exception). -/
def RetrStore : Type := List (List Char) → Except (List Char) (List Row)

/-- Rendering of one selected row (src/app.py line 930):
`- Name: <n>, Products: <p or N/A>, Category: <c or N/A>`. -/
def renderRow (r : Row) : List Char :=
  "- Name: ".data ++ r.name ++ ", Products: ".data ++
    (if r.products.isEmpty then "N/A".data else r.products) ++
    ", Category: ".data ++
    (if r.category.isEmpty then "N/A".data else r.category)

/-- Header line preceding rendered rows (src/app.py line 927). -/
def relevantHeaderLine : List Char :=
  "Relevant producer information from the database:".data

/-- Advisory line appended when the lookup raised (src/app.py line 936). -/
def retrievalErrorLine : List Char :=
  "An error occurred while trying to retrieve information from the database.".data

/-- Advisory line appended when no specific data was gathered
(src/app.py line 940). -/
def noMatchLine : List Char :=
  "No specific producer data found in the database for your query.".data

/-- The static GlobalEnergyDB project-description line, appended
unconditionally (src/app.py line 942).  In the source the literal begins
with a newline character. -/
def generalInfoLine : List Char :=
  "\nGeneral information about GlobalEnergyDB: This project aims to centralize data on global energy production, consumption, and reserves. It includes details on producers and their products (e.g., solar, wind, oil, gas).".data

/-- Result of context retrieval: the `context_data` lines the source
joins with newlines, plus the list of keyword sets actually passed to
the store (so that "the lookup was skipped" is observable). -/
structure RetrievalResult where
  lines : List (List Char)
  storeCalls : List (List (List Char))
deriving DecidableEq, Repr

/-- Embedding of `retrieve_context` (src/app.py lines 898-947): extract keywords; if
none, the dynamic SQL has no parts and the store lookup is skipped;
otherwise one lookup runs, its rows rendered behind a header line, a
raised store error downgraded to an advisory line.  If nothing was
gathered the no-match advisory line is used, and the static project
description is always appended last. -/
def retrieve_context (store : RetrStore) (query : List Char) : RetrievalResult :=
  let filtered := extract_keywords query
  let (context_data, calls) :=
    if filtered.isEmpty then (([] : List (List Char)), ([] : List (List (List Char))))
    else
      match store filtered with
      | .ok rows =>
        (if rows.isEmpty then [] else relevantHeaderLine :: rows.map renderRow,
         [filtered])
      | .error _ => ([retrievalErrorLine], [filtered])
  let context_data :=
    if context_data.isEmpty then context_data ++ [noMatchLine] else context_data
  { lines := context_data ++ [generalInfoLine], storeCalls := calls }

/-- The string handed to the prompt builder: `"\n".join(context_data)`. -/
def joinedContext (r : RetrievalResult) : List Char :=
  match r.lines with
  | [] => []
  | l :: ls => l ++ (ls.map (fun x => '\n' :: x)).flatten

/-- A store holding the single record of the spec scenario. -/
def acmeStore : RetrStore := fun _ =>
  .ok [{ name := "Acme Wind".data, products := "wind turbines".data,
         category := "Wind".data }]

/-- A store whose lookup always raises. -/
def failingStore : RetrStore := fun _ => .error "boom".data

/-- A store with no matching records. -/
def emptyStore : RetrStore := fun _ => .ok []

example : (retrieve_context emptyStore ("what is the a".data)).lines =
    [noMatchLine, generalInfoLine] := by decide

example : (retrieve_context emptyStore ("what is the a".data)).storeCalls = [] := by
  decide

example : (retrieve_context failingStore ("solar".data)).lines =
    [retrievalErrorLine, generalInfoLine] := by decide

example : (retrieve_context acmeStore ("wind turbines".data)).lines =
    [relevantHeaderLine,
     "- Name: Acme Wind, Products: wind turbines, Category: Wind".data,
     generalInfoLine] := by decide

/-! ## The fallback-marker regex (src/app.py line 967)

`re.search(r'\[WEB_SEARCH_SUGGESTION:\s*(.*?)\s*\]', response_text)`:
leftmost match wins; at a match position, after the literal prefix the
first `\s*` is greedy (backtracks downward), the group `(.*?)` is lazy
(grows upward, `.` never matches a newline), the second `\s*` is greedy,
then the literal `]` must follow. -/

/-- Length of the maximal whitespace run at the head of `l`. -/
def wsRun (l : List Char) : Nat :=
  (l.takeWhile isPySpace).length

/-- Greedy `\s*]` at the head of `l`: the largest `b` within the leading
whitespace run such that `]` immediately follows; returns the consumed
length `b` (excluding the `]`). -/
def bestClose (l : List Char) : Option Nat :=
  (((List.range (wsRun l + 1)).filter
    (fun b => (l.drop b).head? == some ']'))).getLast?

/-- The lazy group followed by greedy `\s*]`: tries the empty group
first, then grows it one non-newline character at a time.  Returns the
group's characters and the total length consumed from `l` (group,
trailing whitespace and the closing bracket). -/
def groupLoop : List Char → Option (List Char × Nat)
  | [] => (bestClose []).map (fun b => (([] : List Char), b + 1))
  | c :: rest =>
    match bestClose (c :: rest) with
    | some b => some ([], b + 1)
    | none =>
      if c == '\n' then none
      else (groupLoop rest).map (fun p => (c :: p.1, p.2 + 1))

/-- The greedy first `\s*` (tried from the maximal run downward),
then the lazy group and greedy close.  Given the text after the literal
colon, returns the total consumed length and the captured group. -/
def aLoopAux (rest : List Char) : Nat → Option (Nat × List Char × Nat)
  | 0 => (groupLoop rest).map (fun p => (0, p.1, p.2))
  | a + 1 =>
    match groupLoop (rest.drop (a + 1)) with
    | some (g, n) => some (a + 1, g, n)
    | none => aLoopAux rest a

/-- Match `\s*(.*?)\s*\]` at the head of `rest`:
`some (consumed, group)` on success. -/
def matchAfterColon (rest : List Char) : Option (Nat × List Char) :=
  (aLoopAux rest (wsRun rest)).map (fun t => (t.1 + t.2.2, t.2.1))

/-- The literal head of the fallback marker. -/
def markerLit : List Char := "[WEB_SEARCH_SUGGESTION:".data

/-- Model of `re.search` for the marker pattern: scan left to right; at the first
position where the literal matches and the tail pattern completes,
return `match.group(0)` (the whole matched substring) and
`match.group(1)` (the inner query). -/
def findMarker : List Char → Option (List Char × List Char)
  | [] => none
  | c :: rest =>
    if startsWith markerLit (c :: rest) then
      match matchAfterColon ((c :: rest).drop markerLit.length) with
      | some (n, g) =>
        some (markerLit ++ ((c :: rest).drop markerLit.length).take n, g)
      | none => findMarker rest
    else findMarker rest

/-- Fuel-indexed helper for `removeAll`; the fuel bounds the remaining
input length, so it never runs out when seeded with the input length. -/
def removeAllAux (pat : List Char) : Nat → List Char → List Char
  | _, [] => []
  | 0, s => s
  | fuel + 1, c :: cs =>
    if pat.isEmpty = false ∧ startsWith pat (c :: cs) = true then
      removeAllAux pat fuel (List.drop (pat.length - 1) cs)
    else c :: removeAllAux pat fuel cs

/-- Python `str.replace(pat, "")`: remove all non-overlapping
occurrences of `pat`, scanning left to right.  (The source always calls
it with the non-empty matched marker substring.) -/
def removeAll (pat s : List Char) : List Char :=
  removeAllAux pat s.length s

/-- Model of `urllib.parse.quote` with its default safe set, on ASCII text:
letters, digits and `_.-~/` pass through, every other character becomes
`%XX` with uppercase hex. -/
def isQuoteSafe (c : Char) : Bool :=
  c.isAlphanum || c == '_' || c == '.' || c == '-' || c == '~' || c == '/'

/-- Uppercase hexadecimal digit for `n < 16`. -/
def hexDigit (n : Nat) : Char :=
  if n < 10 then Char.ofNat ('0'.toNat + n) else Char.ofNat ('A'.toNat + n - 10)

/-- Percent-encoding of an ASCII string (models `quote(suggested_query)`). -/
def pyQuote (s : List Char) : List Char :=
  (s.map (fun c =>
    if isQuoteSafe c then [c]
    else ['%', hexDigit (c.toNat / 16 % 16), hexDigit (c.toNat % 16)])).flatten

example : findMarker ("answer. [WEB_SEARCH_SUGGESTION: solar panels]".data) =
    some ("[WEB_SEARCH_SUGGESTION: solar panels]".data, "solar panels".data) := by
  decide

example : findMarker ("no marker here".data) = none := by decide

example : findMarker ("[WEB_SEARCH_SUGGESTION: ]".data) =
    some ("[WEB_SEARCH_SUGGESTION: ]".data, ([] : List Char)) := by decide

example : findMarker ("[WEB_SEARCH_SUGGESTION: never closed".data) = none := by
  decide

example : removeAll ("[X]".data) ("a[X]b[X]".data) = "ab".data := by decide

example : pyQuote ("solar panels".data) = "solar%20panels".data := by decide

/-! ## General lemmas about the marker regex engine -/

lemma startsWith_append (p s : List Char) : startsWith p (p ++ s) = true := by
  induction p with
  | nil => simp [startsWith]
  | cons c cs ih => simp [startsWith, ih]

lemma wsRun_cons_false {c : Char} (cs : List Char) (h : isPySpace c = false) :
    wsRun (c :: cs) = 0 := by
  simp [wsRun, List.takeWhile_cons, h]

lemma wsRun_cons_true {c : Char} (cs : List Char) (h : isPySpace c = true) :
    wsRun (c :: cs) = wsRun cs + 1 := by
  simp [wsRun, List.takeWhile_cons, h]

lemma bestClose_cons_close (post : List Char) :
    bestClose (']' :: post) = some 0 := by
  have h : isPySpace ']' = false := by decide
  simp [bestClose, wsRun_cons_false post h, List.range_succ]

lemma no_close (g post : List Char) (hg : g ≠ [])
    (hrb : ∀ c ∈ g, c ≠ ']') (hlast : isPySpace (g.getLast hg) = false) :
    ∀ b, b ≤ wsRun (g ++ ']' :: post) →
      ((g ++ ']' :: post).drop b).head? ≠ some ']' := by
  induction g with
  | nil => exact absurd rfl hg
  | cons c g' ih =>
    intro b hb
    by_cases hg' : g' = []
    · subst hg'
      have hc : c ≠ ']' := hrb c (by simp)
      have hcw : isPySpace c = false := by simpa using hlast
      simp only [List.cons_append, List.nil_append] at hb ⊢
      rw [wsRun_cons_false _ hcw] at hb
      interval_cases b
      simp [hc]
    · have hlast' : isPySpace (g'.getLast hg') = false := by
        have : (c :: g').getLast hg = g'.getLast hg' := List.getLast_cons hg'
        rwa [this] at hlast
      have hrb' : ∀ x ∈ g', x ≠ ']' := fun x hx => hrb x (by simp [hx])
      by_cases hcw : isPySpace c = true
      · simp only [List.cons_append] at hb ⊢
        rw [wsRun_cons_true _ hcw] at hb
        match b with
        | 0 =>
          have : c ≠ ']' := hrb c (by simp)
          simp [this]
        | b' + 1 =>
          have hb' : b' ≤ wsRun (g' ++ ']' :: post) := by omega
          simpa using ih hg' hrb' hlast' b' hb'
      · simp only [List.cons_append] at hb ⊢
        rw [wsRun_cons_false _ (by simpa using hcw)] at hb
        interval_cases b
        have : c ≠ ']' := hrb c (by simp)
        simp [this]

lemma bestClose_eq_none (l : List Char)
    (h : ∀ b, b ≤ wsRun l → (l.drop b).head? ≠ some ']') :
    bestClose l = none := by
  have hf : (List.range (wsRun l + 1)).filter
      (fun b => (l.drop b).head? == some ']') = [] := by
    apply List.filter_eq_nil_iff.mpr
    intro b hb
    have hble : b ≤ wsRun l := by
      have := List.mem_range.mp hb
      omega
    simpa using h b hble
  unfold bestClose
  rw [hf]
  rfl

lemma groupLoop_append (g post : List Char)
    (hrb : ∀ c ∈ g, c ≠ ']') (hnl : ∀ c ∈ g, c ≠ '\n')
    (hlast : ∀ h : g ≠ [], isPySpace (g.getLast h) = false) :
    groupLoop (g ++ ']' :: post) = some (g, g.length + 1) := by
  induction g with
  | nil => simp [groupLoop, bestClose_cons_close]
  | cons c g' ih =>
    have hne : (c :: g') ≠ [] := by simp
    have hbc : bestClose ((c :: g') ++ ']' :: post) = none :=
      bestClose_eq_none _ (no_close (c :: g') post hne hrb (hlast hne))
    have hcnl : (c == '\n') = false := by
      have := hnl c (by simp)
      simpa using this
    have ih' : groupLoop (g' ++ ']' :: post) = some (g', g'.length + 1) := by
      apply ih
      · exact fun x hx => hrb x (by simp [hx])
      · exact fun x hx => hnl x (by simp [hx])
      · intro h'
        have : (c :: g').getLast hne = g'.getLast h' := List.getLast_cons h'
        rw [← this]
        exact hlast hne
    simp only [List.cons_append] at hbc ⊢
    rw [groupLoop, hbc]
    simp [hcnl, ih']

lemma startsWith_markerLit_false {c : Char} (cs : List Char) (h : c ≠ '[') :
    startsWith markerLit (c :: cs) = false := by
  rw [show markerLit = '[' :: ("WEB_SEARCH_SUGGESTION:".data) from rfl]
  simp only [startsWith, Bool.and_eq_false_iff]
  left
  simp [beq_eq_false_iff_ne]
  exact fun he => h he.symm

lemma findMarker_skip (pre rest : List Char) (h : ∀ c ∈ pre, c ≠ '[') :
    findMarker (pre ++ rest) = findMarker rest := by
  induction pre with
  | nil => rfl
  | cons c pre' ih =>
    rw [List.cons_append, findMarker,
        startsWith_markerLit_false _ (h c (by simp))]
    simp only [Bool.false_eq_true, if_false]
    exact ih (fun x hx => h x (by simp [hx]))

lemma matchAfterColon_space (q post : List Char) (hq : q ≠ [])
    (hrb : ∀ c ∈ q, c ≠ ']') (hnl : ∀ c ∈ q, c ≠ '\n')
    (hhead : isPySpace (q.head hq) = false)
    (hlast : isPySpace (q.getLast hq) = false) :
    matchAfterColon (' ' :: (q ++ (']' :: post))) = some (q.length + 2, q) := by
  have hws : wsRun (' ' :: (q ++ ']' :: post)) = 1 := by
    rw [wsRun_cons_true _ (by decide)]
    cases q with
    | nil => exact absurd rfl hq
    | cons qh qt =>
      simp only [List.cons_append]
      rw [wsRun_cons_false _ (by simpa using hhead)]
  unfold matchAfterColon
  simp only [List.cons_append] at hws ⊢
  rw [hws]
  have hgl : groupLoop (q ++ ']' :: post) = some (q, q.length + 1) :=
    groupLoop_append q post hrb hnl (fun _ => hlast)
  rw [show (1 : Nat) = 0 + 1 from rfl, aLoopAux]
  simp only [List.drop_succ_cons, List.drop_zero]
  rw [hgl]
  simp
  omega

lemma findMarker_at_start (tail : List Char) (n : Nat) (g : List Char)
    (h : matchAfterColon tail = some (n, g)) :
    findMarker (markerLit ++ tail) = some (markerLit ++ tail.take n, g) := by
  rw [show markerLit ++ tail = '[' :: ("WEB_SEARCH_SUGGESTION:".data ++ tail) from rfl]
  rw [findMarker]
  rw [show ('[' :: ("WEB_SEARCH_SUGGESTION:".data ++ tail)) = markerLit ++ tail from rfl]
  rw [startsWith_append]
  simp only [if_true]
  rw [List.drop_left markerLit tail]
  rw [h]

lemma findMarker_full (pre q post : List Char) (hpre : ∀ c ∈ pre, c ≠ '[')
    (hq : q ≠ [])
    (hrb : ∀ c ∈ q, c ≠ ']') (hnl : ∀ c ∈ q, c ≠ '\n')
    (hhead : isPySpace (q.head hq) = false)
    (hlast : isPySpace (q.getLast hq) = false) :
    findMarker (pre ++ (markerLit ++ (' ' :: (q ++ (']' :: post))))) =
      some (markerLit ++ (' ' :: (q ++ [']'])), q) := by
  rw [findMarker_skip pre _ hpre]
  rw [findMarker_at_start _ _ _ (matchAfterColon_space q post hq hrb hnl hhead hlast)]
  have htake : (' ' :: (q ++ (']' :: post))).take (q.length + 2) =
      ' ' :: (q ++ [']']) := by
    rw [show q.length + 2 = (q.length + 1) + 1 from rfl, List.take_succ_cons]
    congr 1
    rw [List.take_append_eq_append_take, List.take_of_length_le (by omega)]
    congr 1
    rw [show q.length + 1 - q.length = 1 by omega]
    rfl
  rw [htake]


/-! ## Lemmas about stripping and keyword extraction -/

lemma dropWhile_eq_self_of_head (f : Char → Bool) (l : List Char)
    (h : ∀ c, l.head? = some c → f c = false) : l.dropWhile f = l := by
  cases l with
  | nil => rfl
  | cons c cs => simp [List.dropWhile_cons, h c rfl]

lemma pyStrip_eq_self (q : List Char) (hq : q ≠ [])
    (hh : isPySpace (q.head hq) = false)
    (hl : isPySpace (q.getLast hq) = false) :
    pyStrip q = q := by
  unfold pyStrip
  rw [dropWhile_eq_self_of_head _ q (fun c hc => by
    rw [List.head?_eq_head hq] at hc
    injection hc with hc
    rwa [hc] at hh)]
  rw [dropWhile_eq_self_of_head _ q.reverse (fun c hc => by
    rw [List.head?_reverse, List.getLast?_eq_getLast q hq] at hc
    injection hc with hc
    rwa [hc] at hl)]
  exact List.reverse_reverse q

lemma tokensAux_word (l : List Char) :
    ∀ acc, (∀ c ∈ acc, isWordChar c = true) →
      ∀ w ∈ tokensAux l acc, ∀ c ∈ w, isWordChar c = true := by
  induction l with
  | nil =>
    intro acc hacc w hw c hc
    unfold tokensAux at hw
    split at hw
    · simp at hw
    · simp at hw
      subst hw
      exact hacc c (List.mem_reverse.mp hc)
  | cons a as ih =>
    intro acc hacc w hw c hc
    unfold tokensAux at hw
    split at hw
    · rename_i ha
      refine ih (a :: acc) ?_ w hw c hc
      intro x hx
      rcases List.mem_cons.mp hx with h | h
      · subst h; exact ha
      · exact hacc x h
    · split at hw
      · exact ih [] (by simp) w hw c hc
      · rcases List.mem_cons.mp hw with h | h
        · subst h
          exact hacc c (List.mem_reverse.mp hc)
        · exact ih [] (by simp) w h c hc

lemma tokensAux_chars (l : List Char) :
    ∀ acc, ∀ w ∈ tokensAux l acc, ∀ c ∈ w, c ∈ l ∨ c ∈ acc := by
  induction l with
  | nil =>
    intro acc w hw c hc
    unfold tokensAux at hw
    split at hw
    · simp at hw
    · simp at hw
      subst hw
      exact Or.inr (List.mem_reverse.mp hc)
  | cons a as ih =>
    intro acc w hw c hc
    unfold tokensAux at hw
    split at hw
    · rcases ih (a :: acc) w hw c hc with h | h
      · exact Or.inl (by simp [h])
      · rcases List.mem_cons.mp h with h' | h'
        · exact Or.inl (by simp [h'])
        · exact Or.inr h'
    · split at hw
      · rcases ih [] w hw c hc with h | h
        · exact Or.inl (by simp [h])
        · simp at h
      · rcases List.mem_cons.mp hw with h | h
        · subst h
          exact Or.inr (List.mem_reverse.mp hc)
        · rcases ih [] w h c hc with h' | h'
          · exact Or.inl (by simp [h'])
          · simp at h'

lemma charToNat_ofNat_valid (n : Nat) (h : n < 55296) :
    (Char.ofNat n).toNat = n := by
  have hv : Nat.isValidChar n := Or.inl h
  simp only [Char.ofNat, dif_pos hv, Char.ofNatAux, Char.toNat, UInt32.toNat]
  simp [BitVec.toNat_ofNatLt]

lemma toLower_isUpper (c : Char) : (Char.toLower c).isUpper = false := by
  simp only [Char.toLower, Char.isUpper, Char.toNat, UInt32.toNat]
  split
  · rename_i h
    have h2 : (Char.ofNat (c.val.toBitVec.toNat + 32)).toNat =
        c.val.toBitVec.toNat + 32 := charToNat_ofNat_valid _ (by omega)
    simp only [Char.toNat, UInt32.toNat] at h2
    rw [Bool.and_eq_false_iff]
    right
    simp only [decide_eq_false_iff_not, UInt32.le_def, BitVec.le_def]
    have : (90 : UInt32).toBitVec.toNat = 90 := by decide
    omega
  · rename_i h
    rw [Bool.and_eq_false_iff]
    simp only [decide_eq_false_iff_not, UInt32.le_def, BitVec.le_def]
    have h65 : (65 : UInt32).toBitVec.toNat = 65 := by decide
    have h90 : (90 : UInt32).toBitVec.toNat = 90 := by decide
    omega

lemma extract_keywords_spec (s : List Char) (w : List Char)
    (hw : w ∈ extract_keywords s) :
    2 < w.length ∧ w ∉ stopWords ∧
      (∀ c ∈ w, isWordChar c = true) ∧ (∀ c ∈ w, c.isUpper = false) := by
  unfold extract_keywords at hw
  have hmem := (List.mem_filter.mp hw).1
  have hp := (List.mem_filter.mp hw).2
  rw [Bool.and_eq_true] at hp
  refine ⟨by simpa using hp.2, ?_, ?_, ?_⟩
  · have hcf : stopWords.contains w = false := by simpa using hp.1
    intro hmem'
    have helem : List.elem w stopWords = true := List.elem_eq_true_of_mem hmem'
    rw [show stopWords.contains w = List.elem w stopWords from rfl, helem] at hcf
    cases hcf
  · intro c hc
    exact tokensAux_word _ [] (by simp) w hmem c hc
  · intro c hc
    have hsrc := tokensAux_chars _ [] w hmem c hc
    rcases hsrc with h | h
    · rcases List.mem_map.mp h with ⟨c0, _, hc0⟩
      rw [← hc0]
      exact toLower_isUpper c0
    · simp at h

lemma extract_keywords_nil_of_short (s : List Char)
    (h : ∀ w ∈ tokens (s.map Char.toLower), w.length ≤ 2) :
    extract_keywords s = [] := by
  unfold extract_keywords
  apply List.filter_eq_nil_iff.mpr
  intro w hw
  have := h w hw
  simp only [Bool.and_eq_true, decide_eq_true_eq, not_and]
  intro
  omega

/-! ## Chat work unit `process_chat_response` (src/app.py lines 960-986) -/

/-- The chat-model capability `gemini_chat_response`'s underlying
`generate` step, abstracted: from the user query and the joined context
it either yields the raw model text or raises. -/
def ChatModel : Type := List Char → List Char → Except (List Char) (List Char)

/-- One `display_message` callback observed by the chat window. -/
inductive ChatDisplay where
  | bot (text : List Char)
  | botLink (text url : List Char)
  | botError (msg : List Char)
deriving DecidableEq, Repr

/-- Everything externally observable about one run of the chat work
unit: the `display_message` calls, the `webbrowser.open_new_tab` calls,
and whether the `finally` cleanup (hide loading label, re-enable the
send button) ran. -/
structure ChatUnitResult where
  displayed : List ChatDisplay
  openedUrls : List (List Char)
  cleanupRan : Bool
deriving DecidableEq, Repr

/-- The canned text substituted when stripping the marker leaves
nothing (src/app.py line 975). -/
def cannedFallbackText (suggested : List Char) : List Char :=
  "I couldn't find a direct answer, but I've opened a web search for '".data ++
    suggested ++ "' for you.".data

/-- The Google search URL built from the suggested query
(src/app.py line 970). -/
def googleUrl (suggested : List Char) : List Char :=
  "https://www.google.com/search?q=".data ++ pyQuote suggested

/-- Embedding of `process_chat_response` (src/app.py lines 960-986): retrieve the
context (store errors already absorbed inside `retrieve_context`), call
the chat model, search the response for the fallback marker; on a
marker, derive the suggested query and search URL, clean the displayed
text (replacing it by the canned sentence when empty), display it as a
link and open the URL in a new browser tab; otherwise display the raw
response.  Any exception is caught at the unit boundary and displayed
as an error message; the `finally` cleanup always runs. -/
def process_chat_response (store : RetrStore) (chatModel : ChatModel)
    (query : List Char) : ChatUnitResult :=
  let context := joinedContext (retrieve_context store query)
  match chatModel query context with
  | .error e =>
    { displayed := [.botError ("An error occurred: ".data ++ e)],
      openedUrls := [], cleanupRan := true }
  | .ok response_text =>
    match findMarker response_text with
    | some (whole, inner) =>
      let suggested_query := pyStrip inner
      let google_url := googleUrl suggested_query
      let clean0 := pyStrip (removeAll whole response_text)
      let clean_response_text :=
        if clean0.isEmpty then cannedFallbackText suggested_query else clean0
      { displayed := [.botLink clean_response_text google_url],
        openedUrls := [google_url], cleanupRan := true }
    | none =>
      { displayed := [.bot response_text], openedUrls := [], cleanupRan := true }

/-- A chat model that ignores its input and returns a fixed text. -/
def constChatModel (t : List Char) : ChatModel := fun _ _ => .ok t

/-- A chat model whose call raises a fixed error. -/
def throwingChatModel (e : List Char) : ChatModel := fun _ _ => .error e

/-! ## Structured-query work unit `run_query_in_thread`
(src/app.py lines 765-838) -/

/-- The literal rejection marker of the translation step. -/
def invalidMarker : List Char := "INVALID_QUERY".data

/-- The allow-list check (src/app.py line 787):
`sql_query_raw.upper().startswith("SELECT")`. -/
def isSelectPrefixed (sql : List Char) : Bool :=
  startsWith ("SELECT".data) (sql.map Char.toUpper)

/-- The translation-validation step (src/app.py lines 787-790): a
stripped model response that passes the allow-list check is kept,
anything else becomes the rejection marker. -/
def validate (sql_query_raw : List Char) : List Char :=
  if isSelectPrefixed sql_query_raw then sql_query_raw else invalidMarker

/-- The validation state of a Candidate Query built from the raw model
response text (after the source's `response.text.strip()`). -/
inductive ValidationState where
  | Unvalidated
  | Valid
  | Rejected
deriving DecidableEq, Repr

/-- Validation state assigned to a raw model response. -/
def validationState (responseText : List Char) : ValidationState :=
  if isSelectPrefixed (pyStrip responseText) then .Valid else .Rejected

/-- The record-store capability used by the query unit: executing a SQL
string on the fresh thread-local connection either yields
`(columns, rows)` or raises. -/
def QueryStore : Type :=
  List Char → Except (List Char) (List (List Char) × List (List (List Char)))

/-- One callback scheduled on the interactive thread via `root.after`. -/
inductive QueryCallback where
  | rejected
  | results (columns : List (List Char)) (rows : List (List (List Char)))
  | noResults
  | dbError (msg sql : List Char)
  | aiError (msg : List Char)
deriving DecidableEq, Repr

/-- Everything externally observable about one run of the query work
unit: the callbacks scheduled on the interactive thread and the SQL
strings executed on the store connection. -/
structure QueryUnitResult where
  callbacks : List QueryCallback
  storeCalls : List (List Char)
deriving DecidableEq, Repr

/-- Embedding of `run_query_in_thread` (src/app.py lines 765-838): call the model
(an exception anywhere is caught by the unit's handlers and reported as
a single error callback); strip the response and validate it by the
allow-list prefix check; a rejected candidate reports and returns
before any store interaction; a valid candidate is executed exactly
once on a fresh connection, with a store exception reported as a
database-error callback. -/
def run_query_in_thread (modelResp : Except (List Char) (List Char))
    (store : QueryStore) : QueryUnitResult :=
  match modelResp with
  | .error e => { callbacks := [.aiError e], storeCalls := [] }
  | .ok text =>
    let sql_query_raw := pyStrip text
    let generated_sql := validate sql_query_raw
    if generated_sql == invalidMarker then
      { callbacks := [.rejected], storeCalls := [] }
    else
      match store generated_sql with
      | .error se =>
        { callbacks := [.dbError se generated_sql], storeCalls := [generated_sql] }
      | .ok (columns, rows) =>
        { callbacks :=
            [if rows.isEmpty then .noResults else .results columns rows],
          storeCalls := [generated_sql] }


/-! ## Case-analysis lemmas for the two work units -/

lemma isSelectPrefixed_invalidMarker : isSelectPrefixed invalidMarker = false := by
  decide

lemma run_query_rejected (text : List Char) (store : QueryStore)
    (h : isSelectPrefixed (pyStrip text) = false) :
    run_query_in_thread (.ok text) store =
      { callbacks := [QueryCallback.rejected], storeCalls := [] } := by
  simp [run_query_in_thread, validate, h]

lemma run_query_valid (text : List Char) (store : QueryStore)
    (h : isSelectPrefixed (pyStrip text) = true) :
    run_query_in_thread (.ok text) store =
      match store (pyStrip text) with
      | .error se =>
        { callbacks := [QueryCallback.dbError se (pyStrip text)],
          storeCalls := [pyStrip text] }
      | .ok (columns, rows) =>
        { callbacks :=
            [if rows.isEmpty then QueryCallback.noResults
             else QueryCallback.results columns rows],
          storeCalls := [pyStrip text] } := by
  have hne : (pyStrip text == invalidMarker) = false := by
    rw [beq_eq_false_iff_ne]
    intro he
    rw [he] at h
    exact absurd h (by decide)
  simp [run_query_in_thread, validate, h, hne]

lemma process_chat_error (cstore : RetrStore) (cm : ChatModel)
    (q e : List Char)
    (h : cm q (joinedContext (retrieve_context cstore q)) = .error e) :
    process_chat_response cstore cm q =
      { displayed := [ChatDisplay.botError ("An error occurred: ".data ++ e)],
        openedUrls := [], cleanupRan := true } := by
  simp only [process_chat_response]
  rw [h]

lemma process_chat_grounded (cstore : RetrStore) (cm : ChatModel)
    (q t : List Char)
    (h : cm q (joinedContext (retrieve_context cstore q)) = .ok t)
    (hm : findMarker t = none) :
    process_chat_response cstore cm q =
      { displayed := [ChatDisplay.bot t], openedUrls := [], cleanupRan := true } := by
  simp only [process_chat_response]
  rw [h]
  dsimp only
  rw [hm]

lemma process_chat_fallback (cstore : RetrStore) (cm : ChatModel)
    (q t whole inner : List Char)
    (h : cm q (joinedContext (retrieve_context cstore q)) = .ok t)
    (hm : findMarker t = some (whole, inner)) :
    process_chat_response cstore cm q =
      { displayed := [ChatDisplay.botLink
          (if (pyStrip (removeAll whole t)).isEmpty
           then cannedFallbackText (pyStrip inner)
           else pyStrip (removeAll whole t))
          (googleUrl (pyStrip inner))],
        openedUrls := [googleUrl (pyStrip inner)], cleanupRan := true } := by
  simp only [process_chat_response]
  rw [h]
  dsimp only
  rw [hm]

lemma retrieve_context_lines_decomp (store : RetrStore) (query : List Char) :
    ∃ pre, (retrieve_context store query).lines = pre ++ [generalInfoLine] := by
  unfold retrieve_context
  exact ⟨_, rfl⟩

/-- A query store returning no rows for any statement. -/
def emptyQueryStore : QueryStore := fun _ =>
  .ok (["name".data], [])

/-- A query store whose execution always raises. -/
def failingQueryStore : QueryStore := fun _ => .error "no such column".data

example :
    (run_query_in_thread (.ok " SELECT * FROM producers ".data)
      emptyQueryStore).storeCalls = ["SELECT * FROM producers".data] := by decide

example :
    (run_query_in_thread (.ok "DROP TABLE producers".data)
      emptyQueryStore) = { callbacks := [.rejected], storeCalls := [] } := by decide

example :
    (run_query_in_thread (.ok "INVALID_QUERY".data)
      emptyQueryStore) = { callbacks := [.rejected], storeCalls := [] } := by decide

example :
    (run_query_in_thread (.ok "select name from producers".data)
      failingQueryStore).callbacks =
      [.dbError ("no such column".data) ("select name from producers".data)] := by
  decide


/-! ## Claim theorems -/

/-- C1: a model-produced candidate query is executed against the record
store at most once and only when its validation state is `Valid`; every
statement that reaches the store passes the SELECT allow-list, and a
`Rejected` candidate results in zero store calls. -/
theorem candidate_query_executed_once_only_if_valid
    (text : List Char) (store : QueryStore) :
    (run_query_in_thread (.ok text) store).storeCalls.length ≤ 1 ∧
    (∀ sql ∈ (run_query_in_thread (.ok text) store).storeCalls,
        isSelectPrefixed sql = true) ∧
    ((run_query_in_thread (.ok text) store).storeCalls ≠ [] ↔
        validationState text = .Valid) ∧
    (validationState text = .Rejected →
        (run_query_in_thread (.ok text) store).storeCalls = []) := by
  by_cases hv : isSelectPrefixed (pyStrip text) = true
  · rw [run_query_valid text store hv]
    have hvs : validationState text = .Valid := by
      simp [validationState, hv]
    rcases hst : store (pyStrip text) with se | ⟨columns, rows⟩ <;>
      simp [hst, hvs, hv]
  · rw [run_query_rejected text store (by simpa using hv)]
    have hvs : validationState text = .Rejected := by
      simp [validationState, hv]
    simp [hvs]

/-- C2: the allow-list validation is exactly the case-insensitive
SELECT-prefix check on the stripped model response: a candidate is
`Valid` (and executed) iff the check passes; in particular
`INVALID_QUERY` and `DROP TABLE producers` are `Rejected`, and a
rejected candidate yields the rejection report and zero store calls. -/
theorem allowlist_validation_is_prefix_check
    (text : List Char) (store : QueryStore) :
    (validationState text = .Valid ↔ isSelectPrefixed (pyStrip text) = true) ∧
    ((run_query_in_thread (.ok text) store).storeCalls ≠ [] ↔
        isSelectPrefixed (pyStrip text) = true) ∧
    validationState ("INVALID_QUERY".data) = .Rejected ∧
    validationState ("DROP TABLE producers".data) = .Rejected ∧
    (validationState text = .Rejected →
        run_query_in_thread (.ok text) store =
          { callbacks := [QueryCallback.rejected], storeCalls := [] }) := by
  refine ⟨?_, ?_, by decide, by decide, ?_⟩
  · simp [validationState]
  · by_cases hv : isSelectPrefixed (pyStrip text) = true
    · rw [run_query_valid text store hv]
      rcases hst : store (pyStrip text) with se | ⟨columns, rows⟩ <;> simp [hst, hv]
    · rw [run_query_rejected text store (by simpa using hv)]
      simpa using hv
  · intro hr
    have hv : isSelectPrefixed (pyStrip text) = false := by
      by_contra hcon
      simp only [Bool.not_eq_false] at hcon
      simp [validationState, hcon] at hr
    exact run_query_rejected text store hv

/-- C4: the retrieved context always contains at least one line, and
with no extracted keywords the store lookup is skipped and the context
is exactly the no-match advisory line plus the static project
description. -/
theorem retrieved_context_never_empty (store : RetrStore) (query : List Char) :
    (retrieve_context store query).lines ≠ [] ∧
    (extract_keywords query = [] →
        retrieve_context store query =
          { lines := [noMatchLine, generalInfoLine], storeCalls := [] }) := by
  constructor
  · obtain ⟨pre, hp⟩ := retrieve_context_lines_decomp store query
    rw [hp]
    simp
  · intro h
    simp [retrieve_context, h]

/-- C10: the context produced by `retrieve_context` always ends with the
static GlobalEnergyDB project-description line, whatever the store
returns and whatever the query. -/
theorem context_ends_with_project_description
    (store : RetrStore) (query : List Char) :
    (retrieve_context store query).lines.getLast? = some generalInfoLine := by
  obtain ⟨pre, hp⟩ := retrieve_context_lines_decomp store query
  rw [hp]
  simp

/-- C7 counterexample: on a store error the retriever returns the
advisory error line *plus* the static project description, not only the
advisory error line as the claim states. -/
theorem store_error_context_counterexample :
    (retrieve_context failingStore ("solar".data)).lines =
      [retrievalErrorLine, generalInfoLine] ∧
    (retrieve_context failingStore ("solar".data)).lines ≠
      [retrievalErrorLine] := by
  refine ⟨by decide, by decide⟩

/-- C7 amended: if the store lookup raises, the retriever absorbs the
failure and returns the context consisting of the advisory error line
followed by the static project description. -/
theorem store_error_degrades_to_advisory (store : RetrStore)
    (query e : List Char)
    (h1 : extract_keywords query ≠ [])
    (h2 : store (extract_keywords query) = .error e) :
    retrieve_context store query =
      { lines := [retrievalErrorLine, generalInfoLine],
        storeCalls := [extract_keywords query] } := by
  have hne : (extract_keywords query).isEmpty = false := by
    cases hek : extract_keywords query with
    | nil => exact absurd hek h1
    | cons a l => rfl
  simp [retrieve_context, hne, h2]

/-- C7 witness: the amended statement at a concrete erroring store. -/
theorem store_error_degrades_to_advisory_witness :
    retrieve_context failingStore ("solar".data) =
      { lines := [retrievalErrorLine, generalInfoLine],
        storeCalls := [extract_keywords ("solar".data)] } :=
  store_error_degrades_to_advisory failingStore ("solar".data) ("boom".data)
    (by decide) rfl

/-- C8 counterexample: the extractor keeps underscore-only tokens (not
alphabetic-or-numeric) and keeps duplicates, refuting the claim that
the result is a set of distinct alphanumeric tokens and that inputs
with no alphanumeric token longer than 2 yield the empty result. -/
theorem keyword_extractor_counterexample :
    extract_keywords ("____".data) = [("____".data)] ∧
    Char.isAlphanum '_' = false ∧
    extract_keywords ("solar solar".data) =
      [("solar".data), ("solar".data)] := by
  refine ⟨by decide, by decide, by decide⟩

/-- C8 amended: the extractor returns the ordered list (duplicates kept)
of maximal word-character runs of the lowercased input that are longer
than 2 and not stop words; every returned token consists of word
characters (letters, digits or underscore) with no upper-case letter,
and if every run of the lowercased input has length at most 2 the
result is empty. -/
theorem keyword_extractor_amended (s : List Char) :
    (∀ w ∈ extract_keywords s,
        2 < w.length ∧ w ∉ stopWords ∧
        (∀ c ∈ w, isWordChar c = true) ∧ (∀ c ∈ w, c.isUpper = false)) ∧
    ((∀ w ∈ tokens (s.map Char.toLower), w.length ≤ 2) →
        extract_keywords s = []) :=
  ⟨fun w hw => extract_keywords_spec s w hw,
   fun h => extract_keywords_nil_of_short s h⟩


/-- C5: every work unit schedules exactly one completion callback on the
interactive thread (the chat unit additionally always runs its cleanup),
and an exception in the model call or the store call is caught at the
unit boundary and delivered as a single error callback through the same
channel as success. -/
theorem work_unit_completes_exactly_once
    (modelResp : Except (List Char) (List Char)) (store : QueryStore)
    (cstore : RetrStore) (cm : ChatModel) (q : List Char) :
    (run_query_in_thread modelResp store).callbacks.length = 1 ∧
    (process_chat_response cstore cm q).displayed.length = 1 ∧
    (process_chat_response cstore cm q).cleanupRan = true ∧
    (∀ e, modelResp = .error e →
        (run_query_in_thread modelResp store).callbacks =
          [QueryCallback.aiError e]) ∧
    (∀ text se, modelResp = .ok text →
        store (pyStrip text) = .error se →
        validationState text = .Valid →
        (run_query_in_thread modelResp store).callbacks =
          [QueryCallback.dbError se (pyStrip text)]) ∧
    (∀ e, cm q (joinedContext (retrieve_context cstore q)) = .error e →
        (process_chat_response cstore cm q).displayed =
          [ChatDisplay.botError ("An error occurred: ".data ++ e)]) := by
  have hchat : (process_chat_response cstore cm q).displayed.length = 1 ∧
      (process_chat_response cstore cm q).cleanupRan = true := by
    rcases hcm : cm q (joinedContext (retrieve_context cstore q)) with e | t
    · rw [process_chat_error cstore cm q e hcm]
      exact ⟨rfl, rfl⟩
    · rcases hm : findMarker t with _ | ⟨whole, inner⟩
      · rw [process_chat_grounded cstore cm q t hcm hm]
        exact ⟨rfl, rfl⟩
      · rw [process_chat_fallback cstore cm q t whole inner hcm hm]
        exact ⟨rfl, rfl⟩
  refine ⟨?_, hchat.1, hchat.2, ?_, ?_, ?_⟩
  · rcases modelResp with e | text
    · rfl
    · by_cases hv : isSelectPrefixed (pyStrip text) = true
      · rw [run_query_valid text store hv]
        rcases hst : store (pyStrip text) with se | ⟨columns, rows⟩ <;> rfl
      · rw [run_query_rejected text store (by simpa using hv)]
        rfl
  · intro e he
    subst he
    rfl
  · intro text se hok hst hvv
    subst hok
    have hv : isSelectPrefixed (pyStrip text) = true := by
      by_contra hcon
      simp only [Bool.not_eq_true] at hcon
      simp [validationState, hcon] at hvv
    rw [run_query_valid text store hv, hst]
  · intro e he
    rw [process_chat_error cstore cm q e he]

/-- C6 counterexample: on a fallback reply the chat unit itself opens
the derived Google search URL in a new browser tab — the open call does
not stay with the caller as the claim states. -/
theorem responder_opens_browser_counterexample :
    (process_chat_response emptyStore
        (constChatModel ("answer. [WEB_SEARCH_SUGGESTION: solar panels]".data))
        ("hi".data)).openedUrls =
      [("https://www.google.com/search?q=solar%20panels".data)] ∧
    (process_chat_response emptyStore
        (constChatModel ("answer. [WEB_SEARCH_SUGGESTION: solar panels]".data))
        ("hi".data)).openedUrls ≠ [] := by
  refine ⟨by decide, by decide⟩

/-- C6 amended: a grounded reply and a failed unit open no external
destination, but a fallback reply makes the unit itself open exactly the
derived search URL (in addition to surfacing it as a clickable link). -/
theorem fallback_url_opened_by_unit (cstore : RetrStore) (cm : ChatModel)
    (q : List Char) :
    (∀ t, cm q (joinedContext (retrieve_context cstore q)) = .ok t →
        (findMarker t = none →
          (process_chat_response cstore cm q).openedUrls = []) ∧
        (∀ whole inner, findMarker t = some (whole, inner) →
          (process_chat_response cstore cm q).openedUrls =
            [googleUrl (pyStrip inner)])) ∧
    (∀ e, cm q (joinedContext (retrieve_context cstore q)) = .error e →
        (process_chat_response cstore cm q).openedUrls = []) := by
  constructor
  · intro t ht
    constructor
    · intro hm
      rw [process_chat_grounded cstore cm q t ht hm]
    · intro whole inner hm
      rw [process_chat_fallback cstore cm q t whole inner ht hm]
  · intro e he
    rw [process_chat_error cstore cm q e he]

/-- C6 witness: the amended statement at a concrete fallback reply. -/
theorem fallback_url_opened_by_unit_witness :
    (process_chat_response emptyStore
        (constChatModel ("answer. [WEB_SEARCH_SUGGESTION: solar panels]".data))
        ("hi".data)).openedUrls =
      [googleUrl ("solar panels".data)] := by
  refine ((fallback_url_opened_by_unit emptyStore
      (constChatModel ("answer. [WEB_SEARCH_SUGGESTION: solar panels]".data))
      ("hi".data)).1
    ("answer. [WEB_SEARCH_SUGGESTION: solar panels]".data) rfl).2
    ("[WEB_SEARCH_SUGGESTION: solar panels]".data) ("solar panels".data)
    (by decide)

/-- C3 counterexample: on the spec's own example the displayed text is
the marker-removed text additionally whitespace-trimmed ("answer."),
not the marker-removed original ("answer. " with its trailing space). -/
theorem marker_removal_trims_counterexample :
    (process_chat_response emptyStore
        (constChatModel ("answer. [WEB_SEARCH_SUGGESTION: solar panels]".data))
        ("hi".data)).displayed =
      [ChatDisplay.botLink ("answer.".data)
        ("https://www.google.com/search?q=solar%20panels".data)] ∧
    removeAll ("[WEB_SEARCH_SUGGESTION: solar panels]".data)
      ("answer. [WEB_SEARCH_SUGGESTION: solar panels]".data) =
      ("answer. ".data) ∧
    ("answer.".data : List Char) ≠ ("answer. ".data) := by
  refine ⟨by decide, by decide, by decide⟩

/-- C3 amended: for a reply `pre ++ "[WEB_SEARCH_SUGGESTION: " ++ q ++ "]"
++ post` (with `pre` free of brackets and `q` a nonempty query with no
closing bracket or newline and no surrounding whitespace), the unit
produces a fallback reply whose derived query is exactly `q` and whose
displayed text is the original text with all occurrences of the matched
marker substring removed and then whitespace-trimmed, the canned
sentence replacing an empty remainder; a reply with no parseable marker
is displayed unchanged as a grounded reply. -/
theorem fallback_marker_roundtrip (pre q post queryText : List Char)
    (cstore : RetrStore)
    (hpre : ∀ c ∈ pre, c ≠ '[') (hq : q ≠ [])
    (hrb : ∀ c ∈ q, c ≠ ']') (hnl : ∀ c ∈ q, c ≠ '\n')
    (hhead : isPySpace (q.head hq) = false)
    (hlast : isPySpace (q.getLast hq) = false) :
    process_chat_response cstore
        (constChatModel (pre ++ (markerLit ++ (' ' :: (q ++ (']' :: post))))))
        queryText =
      { displayed := [ChatDisplay.botLink
          (if (pyStrip (removeAll (markerLit ++ (' ' :: (q ++ [']'])))
                  (pre ++ (markerLit ++ (' ' :: (q ++ (']' :: post))))))).isEmpty
           then cannedFallbackText q
           else pyStrip (removeAll (markerLit ++ (' ' :: (q ++ [']'])))
                  (pre ++ (markerLit ++ (' ' :: (q ++ (']' :: post)))))))
          (googleUrl q)],
        openedUrls := [googleUrl q], cleanupRan := true } ∧
    (∀ t, findMarker t = none →
        process_chat_response cstore (constChatModel t) queryText =
          { displayed := [ChatDisplay.bot t], openedUrls := [],
            cleanupRan := true }) := by
  constructor
  · have hfm := findMarker_full pre q post hpre hq hrb hnl hhead hlast
    have hps : pyStrip q = q := pyStrip_eq_self q hq hhead hlast
    rw [process_chat_fallback cstore _ queryText _ _ _ rfl hfm, hps]
  · exact fun t hm => process_chat_grounded cstore _ queryText t rfl hm

/-- C3 witness: the amended statement at the spec's round-trip example. -/
theorem fallback_marker_roundtrip_witness :
    (process_chat_response emptyStore
        (constChatModel (("answer. ".data) ++ (markerLit ++
          (' ' :: (("solar panels".data) ++ (']' :: ([] : List Char)))))))
        ("hi".data)).openedUrls = [googleUrl ("solar panels".data)] := by
  rw [(fallback_marker_roundtrip ("answer. ".data) ("solar panels".data) []
    ("hi".data) emptyStore (by decide) (by decide) (by decide) (by decide)
    (by decide) (by decide)).1]

/-- C9 counterexample: a marker whose inner query is empty is not
treated as a grounded reply with the raw text — the unit produces a
fallback reply with an empty derived query and opens the bare search
URL. -/
theorem empty_marker_query_counterexample :
    (process_chat_response emptyStore
        (constChatModel ("[WEB_SEARCH_SUGGESTION: ]".data))
        ("hi".data)).displayed =
      [ChatDisplay.botLink (cannedFallbackText [])
        ("https://www.google.com/search?q=".data)] ∧
    (process_chat_response emptyStore
        (constChatModel ("[WEB_SEARCH_SUGGESTION: ]".data))
        ("hi".data)).displayed ≠
      [ChatDisplay.bot ("[WEB_SEARCH_SUGGESTION: ]".data)] ∧
    (process_chat_response emptyStore
        (constChatModel ("[WEB_SEARCH_SUGGESTION: ]".data))
        ("hi".data)).openedUrls ≠ [] := by
  refine ⟨by decide, by decide, by decide⟩

/-- C9 amended: a reply whose marker never completes (no parseable
close) is treated as grounded with the raw text unchanged, but a
completed marker with an empty inner query still produces a fallback
whose derived query is empty (the bare search URL is opened). -/
theorem unparseable_marker_treated_as_grounded
    (t queryText : List Char) (cstore : RetrStore) :
    (findMarker t = none →
        process_chat_response cstore (constChatModel t) queryText =
          { displayed := [ChatDisplay.bot t], openedUrls := [],
            cleanupRan := true }) ∧
    findMarker ("[WEB_SEARCH_SUGGESTION: never closed".data) = none ∧
    (∀ whole inner, findMarker t = some (whole, inner) → pyStrip inner = [] →
        (process_chat_response cstore (constChatModel t) queryText).openedUrls =
          [googleUrl ([] : List Char)]) := by
  refine ⟨fun hm => process_chat_grounded cstore _ queryText t rfl hm,
    by decide, ?_⟩
  intro whole inner hm hempty
  rw [process_chat_fallback cstore _ queryText t whole inner rfl hm]
  dsimp only
  rw [hempty]


/-- C1 witness: a rejected candidate ("DROP TABLE producers") produces
zero store calls. -/
theorem candidate_query_executed_once_witness :
    (run_query_in_thread (.ok ("DROP TABLE producers".data))
      emptyQueryStore).storeCalls = [] :=
  (candidate_query_executed_once_only_if_valid ("DROP TABLE producers".data)
    emptyQueryStore).2.2.2 (by decide)

/-- C2 witness: the rejected candidate is reported and never executed. -/
theorem allowlist_validation_witness :
    run_query_in_thread (.ok ("DROP TABLE producers".data)) emptyQueryStore =
      { callbacks := [QueryCallback.rejected], storeCalls := [] } :=
  (allowlist_validation_is_prefix_check ("DROP TABLE producers".data)
    emptyQueryStore).2.2.2.2 (by decide)

/-- C4 witness: a stop-word-only query skips the lookup and returns the
advisory line plus the project description. -/
theorem retrieved_context_never_empty_witness :
    retrieve_context emptyStore ("the".data) =
      { lines := [noMatchLine, generalInfoLine], storeCalls := [] } :=
  (retrieved_context_never_empty emptyStore ("the".data)).2 (by decide)

/-- C5 witness: a model failure is delivered as a single error
callback. -/
theorem work_unit_completes_exactly_once_witness :
    (run_query_in_thread (.error ("boom".data)) emptyQueryStore).callbacks =
      [QueryCallback.aiError ("boom".data)] :=
  (work_unit_completes_exactly_once (.error ("boom".data)) emptyQueryStore
    emptyStore (constChatModel ("hi".data)) ("q".data)).2.2.2.1
    ("boom".data) rfl

/-- C8 witness: the amended statement at a concrete extraction. -/
theorem keyword_extractor_amended_witness :
    2 < ("solar".data).length ∧ ("solar".data) ∉ stopWords := by
  have h := (keyword_extractor_amended ("What is solar energy?".data)).1
      ("solar".data) (by decide)
  exact ⟨h.1, h.2.1⟩

/-- C9 witness: the empty-marker reply opens the bare search URL. -/
theorem unparseable_marker_treated_as_grounded_witness :
    (process_chat_response emptyStore
        (constChatModel ("[WEB_SEARCH_SUGGESTION: ]".data))
        ("hi".data)).openedUrls = [googleUrl ([] : List Char)] :=
  (unparseable_marker_treated_as_grounded ("[WEB_SEARCH_SUGGESTION: ]".data)
    ("hi".data) emptyStore).2.2 ("[WEB_SEARCH_SUGGESTION: ]".data) []
    (by decide) rfl

end EnergyApp

